import Mathlib

/-!
# Verification of the auth/otp microservices (kitsune-turing/auth_microservices)

Shallow embedding of the credential-lifecycle core of the repository:

* the OTP lifecycle manager (`otp_microservice`): the `OTP` entity
  (`src/core/domain/entity.py`), the repository effects on the `otp_codes`
  table (`src/infrastructure/adapters/db/otp_repository.py`), and the
  `GenerateOTPUseCase.execute` / `ValidateOTPUseCase.execute` use cases;
* the token issuance / revocation / session service (`auth_microservice`):
  the `auth_tokens` and `sessions` rows as the repositories read and write
  them (`auth_token_repository.py`, `session_repository.py`), the
  `JWTService.decode_token` payload projection, and the
  `ValidateTokenUseCase` / `RefreshTokenUseCase` / `LogoutUseCase` flows.

Modelling conventions:

* timestamps are integers (Unix seconds); `datetime.now(...)` becomes an
  explicit `now : Int` argument threaded through each call;
* UUIDs are strings in canonical lower-case form; Python's `UUID(s)`
  normalisation is modelled by `String.toLower`;
* database tables are association lists of row structures; SQL `UPDATE`
  statements become `List.map` over the rows, touching exactly the columns
  the statement sets; `scalar_one_or_none` / `result.first()` become
  `List.find?`;
* the SHA-256 `hash_token` primitive and the `jose.jwt` signature check are
  black boxes: functions `hashToken : String → String` and
  `verify : String → Option RawPayload` are parameters of the flows that
  use them (no theorem below depends on their internals);
* fallible code returns `Except`; a use case that mutates the store returns
  the result paired with the post-state of the store(s).

The repository carries several stitched revisions side by side (e.g. an
older `AuthToken` entity keyed by `token_string` next to the hash/jti-based
repository).  The embedding follows the row schema that the cited
repositories and use cases actually read and write (id, user_id,
token_type, token_hash, jti, expires_at, created_at, revoked, revoked_at);
the value-object class `TokenPayload` omits a `jti` field even though the
signed payload built by `create_access_token` / `create_refresh_token`
carries `"jti"` and the use cases read `payload.jti`, so the payload model
here carries the `jti` claim of the signed token.
-/

/-! ## OTP microservice: data model (src/otp_microservice/src/core/domain/entity.py) -/

/-- Source `OTPStatus` enum (`entity.py`). -/
inductive OTPStatus where
  | pending
  | sent
  | validated
  | expired
  | failed
deriving DecidableEq, Repr

/-- Source `DeliveryMethod` enum (`entity.py`). -/
inductive DeliveryMethod where
  | email
  | sms
deriving DecidableEq, Repr

/-- The `OTP` entity (`entity.py`), one row of `siata_auth.otp_codes`.
`otpId` is the UUID primary key, timestamps are Unix seconds. -/
structure OTP where
  otpId : String
  userId : String
  code : String
  deliveryMethod : DeliveryMethod
  recipient : String
  maxAttempts : Nat
  status : OTPStatus
  createdAt : Int
  expiresAt : Int
  attempts : Nat
  validatedAt : Option Int
deriving DecidableEq, Repr

/-- Source `OTP.is_expired`: `datetime.now(UTC) > self.expires_at` (strict). -/
def OTP.isExpired (o : OTP) (now : Int) : Bool :=
  now > o.expiresAt

/-- Source `OTP.is_valid_code`: string equality with the stored code. -/
def OTP.isValidCode (o : OTP) (provided : String) : Bool :=
  o.code == provided

/-- Source `OTP.can_attempt_validation`: `self.attempts < self.max_attempts`. -/
def OTP.canAttemptValidation (o : OTP) : Bool :=
  o.attempts < o.maxAttempts

/-- Source `OTP.increment_attempts`: `self.attempts += 1`. -/
def OTP.incrementAttempts (o : OTP) : OTP :=
  { o with attempts := o.attempts + 1 }

/-- Source `OTP.mark_as_validated`: status→validated, record the timestamp. -/
def OTP.markAsValidated (o : OTP) (now : Int) : OTP :=
  { o with status := OTPStatus.validated, validatedAt := some now }

/-- Source `OTP.mark_as_expired`: status→expired. -/
def OTP.markAsExpired (o : OTP) : OTP :=
  { o with status := OTPStatus.expired }

/-! ## OTP repository effects (src/otp_microservice/src/infrastructure/adapters/db/otp_repository.py) -/

/-- The `otp_codes` table. -/
abbrev OTPStore := List OTP

/-- Source `OTPRepository.get_by_id`: `SELECT ... WHERE otp_id = :otp_id`, first row. -/
def OTPStore.getById (s : OTPStore) (otpId : String) : Option OTP :=
  s.find? (fun o => o.otpId == otpId)

/-- Source `OTPRepository.update`: `UPDATE otp_codes SET otp_code_hash, status,
attempts, validated_at WHERE otp_id = ...` — only those four columns are
written; user_id, delivery_method, recipient, max_attempts, created_at and
expires_at of the stored row are untouched. -/
def OTPStore.update (s : OTPStore) (o : OTP) : OTPStore :=
  s.map (fun r =>
    if r.otpId == o.otpId then
      { r with code := o.code, status := o.status,
               attempts := o.attempts, validatedAt := o.validatedAt }
    else r)

/-- Source `OTPRepository.save`: raw `INSERT` of the row. -/
def OTPStore.save (s : OTPStore) (o : OTP) : OTPStore :=
  s ++ [o]

/-! ## ValidateOTPUseCase (src/otp_microservice/src/application/validate_otp_use_case.py) -/

deriving instance DecidableEq for Except

/-- The exceptions `ValidateOTPUseCase.execute` can raise. -/
inductive OTPValidateError where
  | notFound
  | alreadyUsed
  | expired
  | maxAttemptsExceeded
  | invalidCode (attemptsRemaining : Nat)
deriving DecidableEq, Repr

/-- Source `ValidateOTPResponse` DTO (success case). -/
structure ValidateOTPResponse where
  valid : Bool
  userId : String
  email : Option String
  attemptsRemaining : Option Nat
deriving DecidableEq, Repr

/-- Source `ValidateOTPUseCase.execute`, returning the response (or raised
exception) together with the post-state of the `otp_codes` table.

Faithful to the source's control flow: not-found, already-validated,
expired, attempts-exceeded checks in that order; the expired branch calls
`otp.mark_as_expired()` on the in-memory entity and raises **without**
calling `self.otp_repository.update(otp)`, so the store is unchanged
there; the increment happens after the four guards, and both the match and
the mismatch branches persist the incremented entity. -/
def validateOTPExecute (s : OTPStore) (otpId : String) (otpCode : String)
    (now : Int) : Except OTPValidateError ValidateOTPResponse × OTPStore :=
  match s.getById otpId with
  | none => (Except.error OTPValidateError.notFound, s)
  | some otp =>
    if otp.status = OTPStatus.validated then
      (Except.error OTPValidateError.alreadyUsed, s)
    else if otp.isExpired now then
      -- `otp.mark_as_expired()` mutates only the local entity; no update call.
      (Except.error OTPValidateError.expired, s)
    else if ¬ otp.canAttemptValidation then
      (Except.error OTPValidateError.maxAttemptsExceeded, s)
    else
      let otp' := otp.incrementAttempts
      if otp'.isValidCode otpCode then
        let otp'' := otp'.markAsValidated now
        (Except.ok
          { valid := true
            userId := otp''.userId
            email := if otp''.recipient.data.contains '@' then some otp''.recipient else none
            attemptsRemaining := none },
          s.update otp'')
      else
        let s' := s.update otp'
        let attemptsRemaining := otp'.maxAttempts - otp'.attempts
        if attemptsRemaining = 0 then
          (Except.error OTPValidateError.maxAttemptsExceeded, s')
        else
          (Except.error (OTPValidateError.invalidCode attemptsRemaining), s')

/-! ## String helpers

Python string operations are character-based, so they are modelled over
`String.data` (the character list); `strTake s n` / `strTakeRight s n` are
`s[:n]` / `s[-n:]`, `starRepeat n` is `"*" * n` (empty for a negative
Python count, matching truncated `Nat` subtraction at the call sites). -/

def strTake (s : String) (n : Nat) : String :=
  String.mk (s.data.take n)

def strTakeRight (s : String) (n : Nat) : String :=
  String.mk (s.data.drop (s.data.length - n))

def starRepeat (n : Nat) : String :=
  String.mk (List.replicate n '*')

/-- Split a character list at a separator (Python `str.split(sep)` for a
one-character separator). -/
def splitOnChar (c : Char) : List Char → List (List Char)
  | [] => [[]]
  | x :: xs =>
    if x = c then [] :: splitOnChar c xs
    else
      match splitOnChar c xs with
      | [] => [[x]]
      | h :: t => (x :: h) :: t

/-- A hex digit as accepted by the `[0-9a-f]` / `re.IGNORECASE` pattern. -/
def isUuidHexDigit (c : Char) : Bool :=
  c.isDigit || ('a' ≤ c && c ≤ 'f') || ('A' ≤ c && c ≤ 'F')

/-- Source `validate_jti_format` (src/auth_microservice/src/core/utils/security.py):
the case-insensitive 8-4-4-4-12 hex UUID regex. -/
def validateJtiFormat (s : String) : Bool :=
  match splitOnChar '-' s.data with
  | [a, b, c, d, e] =>
    a.length == 8 && b.length == 4 && c.length == 4 && d.length == 4 &&
    e.length == 12 && (a ++ b ++ c ++ d ++ e).all isUuidHexDigit
  | _ => false

/-- Python's `UUID(s)` normalises to canonical lower case; stored UUID
columns hold the canonical form. -/
def canonUuid (s : String) : String :=
  String.mk (s.data.map Char.toLower)

/-! ## GenerateOTPUseCase (src/otp_microservice/src/application/generate_otp_use_case.py) -/

/-- Source `GenerateOTPUseCase._get_recipient` (mock lookup). -/
def getRecipient (userId deliveryMethod : String) : String :=
  if deliveryMethod == "email" then "user_" ++ userId ++ "@example.com"
  else "+573001234567"

/-- Source `GenerateOTPUseCase._mask_recipient`. -/
def maskRecipient (recipient method : String) : String :=
  if method == "email" then
    match (splitOnChar '@' recipient.data).map String.mk with
    | [username, domain] =>
      let maskedUsername :=
        if username.length > 2 then
          strTake username 1 ++ starRepeat (username.length - 2) ++ strTakeRight username 1
        else username
      maskedUsername ++ "@" ++ domain
    | _ => recipient
  else
    if recipient.length > 4 then
      strTake recipient 3 ++ starRepeat (recipient.length - 6) ++ strTakeRight recipient 3
    else recipient

/-- Source `GenerateOTPRequest` DTO. -/
structure GenerateOTPRequest where
  userId : String
  deliveryMethod : String
  recipient : Option String
deriving DecidableEq, Repr

/-- Source `GenerateOTPResponse` DTO: `otp_code` is `Optional[str]`, documented as
"OTP code (only in development mode)". -/
structure GenerateOTPResponse where
  otpId : String
  expiresAt : Int
  deliveryMethod : String
  recipient : String
  otpCode : Option String
deriving DecidableEq, Repr

/-- The exceptions `GenerateOTPUseCase.execute` can raise. -/
inductive GenerateOTPError where
  | invalidDeliveryMethod
  | generationFailed
deriving DecidableEq, Repr

/-- Source `GenerateOTPUseCase.execute`.

Inputs that the Python obtains from ambient effects are explicit
arguments: `generatedCode` is the value of `_generate_otp_code()`
(`secrets.randbelow`), `freshId` the `uuid4()` primary key of the new row,
`now` the creation clock.  `devShowOtpInResponse` is the
`DEV_SHOW_OTP_IN_RESPONSE` settings flag ("Show OTP code in response
(development only)", default `True`): the use case never reads it — the
response carries `otp_code=otp_code` unconditionally (line 138,
"Only for development/testing") — so the parameter is unused here exactly
as the flag is unused in the source. -/
def generateOTPExecute (devShowOtpInResponse : Bool) (s : OTPStore)
    (req : GenerateOTPRequest) (generatedCode : String) (freshId : String)
    (now : Int) : Except GenerateOTPError GenerateOTPResponse × OTPStore :=
  if req.deliveryMethod ≠ "email" ∧ req.deliveryMethod ≠ "sms" then
    (Except.error GenerateOTPError.invalidDeliveryMethod, s)
  else
    -- `request.recipient or self._get_recipient(...)`: `None` and `""` are falsy.
    let recipient :=
      match req.recipient with
      | some r => if r = "" then getRecipient req.userId req.deliveryMethod else r
      | none => getRecipient req.userId req.deliveryMethod
    let dm := if req.deliveryMethod == "email" then DeliveryMethod.email else DeliveryMethod.sms
    let otp : OTP :=
      { otpId := freshId, userId := req.userId, code := generatedCode,
        deliveryMethod := dm, recipient := recipient, maxAttempts := 3,
        status := OTPStatus.pending, createdAt := now, expiresAt := now + 5 * 60,
        attempts := 0, validatedAt := none }
    (Except.ok
      { otpId := freshId
        expiresAt := otp.expiresAt
        deliveryMethod := req.deliveryMethod
        recipient := maskRecipient recipient req.deliveryMethod
        otpCode := some generatedCode },
      s.save otp)

/-! ## Concurrent validate calls (OTP)

`ValidateOTPUseCase.execute` is a non-atomic read–check–increment–write
(Design Notes of the spec).  A concurrent execution is modelled by
separating the read from the write: each call computes its write-back from
a snapshot of the row read by `get_by_id` in *some* reachable state
(possibly stale by the time the write lands on the current table). -/

/-- The store effect of one `ValidateOTPUseCase.execute` call whose
`get_by_id` read returned the snapshot `snap`, applied to the current
table `s`.  Mirrors the use case's writes: nothing is persisted on the
already-validated / expired / attempts-exceeded guards (the expired branch
mutates only the in-memory entity), and both the code-match and the
code-mismatch branches persist the incremented snapshot. -/
def validateOTPEffect (s : OTPStore) (snap : OTP) (otpCode : String)
    (now : Int) : OTPStore :=
  if snap.status = OTPStatus.validated then s
  else if snap.isExpired now then s
  else if ¬ snap.canAttemptValidation then s
  else
    let otp' := snap.incrementAttempts
    if otp'.isValidCode otpCode then s.update (otp'.markAsValidated now)
    else s.update otp'

/-- Tables reachable from `init` under any interleaving of concurrent
`validate` calls for any OTP ids and codes: each step applies the write
effect of one call to the current table, with the call's snapshot read
from an arbitrary reachable table (the stale-read race). -/
inductive OTPConcReach (init : OTPStore) : OTPStore → Prop where
  | refl : OTPConcReach init init
  | step {s snapState : OTPStore} {snap : OTP} (otpId otpCode : String) (now : Int) :
      OTPConcReach init s →
      OTPConcReach init snapState →
      snapState.getById otpId = some snap →
      OTPConcReach init (validateOTPEffect s snap otpCode now)

/-- The invariant of claim C2: every row's attempt counter is within its
cap. -/
def OTPStore.attemptsWithinCap (s : OTPStore) : Prop :=
  ∀ o ∈ s, o.attempts ≤ o.maxAttempts

instance (s : OTPStore) : Decidable s.attemptsWithinCap :=
  List.decidableBAll _ s

/-- The per-row data that no validate write-back ever changes: primary key
and attempts cap (the repository's `UPDATE` sets only `otp_code_hash`,
`status`, `attempts`, `validated_at`). -/
def OTPStore.idCaps (s : OTPStore) : List (String × Nat) :=
  s.map (fun o => (o.otpId, o.maxAttempts))

/-! ## Auth microservice: data model

Rows of `siata_auth.auth_tokens` and `sessions` with the columns the
repositories read and write (`auth_token_repository.py`,
`session_repository.py`): id (PK), user_id, token_type, token_hash, jti,
expires_at, created_at, revoked, revoked_at; sessions additionally carry
client info, activity timestamps, the `active` flag and `ended_at`. -/

/-- Source `TokenType` enum (`auth_entities.py`). -/
inductive TokenType where
  | access
  | refresh
  | session
deriving DecidableEq, Repr

/-- One row of `auth_tokens`. -/
structure AuthTokenRec where
  id : String
  userId : String
  tokenType : TokenType
  tokenHash : String
  jti : String
  expiresAt : Int
  createdAt : Int
  revoked : Bool
  revokedAt : Option Int
deriving DecidableEq, Repr

/-- One row of `sessions`. -/
structure SessionRec where
  id : String
  userId : String
  accessTokenId : String
  ipAddress : String
  userAgent : String
  createdAt : Int
  lastActivity : Int
  expiresAt : Int
  active : Bool
  endedAt : Option Int
deriving DecidableEq, Repr

abbrev AuthTokenStore := List AuthTokenRec

abbrev SessionStore := List SessionRec

/-! ## AuthTokenRepository (…/db/repositories/auth_token_repository.py) -/

/-- Source `get_by_jti`: `SELECT ... WHERE jti = :jti`, single row or none. -/
def AuthTokenStore.getByJti (s : AuthTokenStore) (jti : String) : Option AuthTokenRec :=
  s.find? (fun r => r.jti == jti)

/-- Source `get_by_token_hash`: `SELECT ... WHERE token_hash = :hash`. -/
def AuthTokenStore.getByTokenHash (s : AuthTokenStore) (h : String) : Option AuthTokenRec :=
  s.find? (fun r => r.tokenHash == h)

/-- Source `revoke_token`: `UPDATE ... SET revoked=true, revoked_at=now WHERE
id = :id`; returns `rowcount > 0` with the new table. -/
def AuthTokenStore.revokeToken (s : AuthTokenStore) (tokenId : String)
    (now : Int) : Bool × AuthTokenStore :=
  (s.any (fun r => r.id == tokenId),
   s.map (fun r =>
     if r.id == tokenId then { r with revoked := true, revokedAt := some now }
     else r))

/-- Source `revoke_all_user_tokens`: `UPDATE ... SET revoked=true, revoked_at=now
WHERE user_id = :u AND revoked = false`; returns the rowcount with the new
table. -/
def AuthTokenStore.revokeAllUserTokens (s : AuthTokenStore) (userId : String)
    (now : Int) : Nat × AuthTokenStore :=
  ((s.filter (fun r => r.userId == userId && !r.revoked)).length,
   s.map (fun r =>
     if r.userId == userId && !r.revoked then
       { r with revoked := true, revokedAt := some now }
     else r))

/-- Source `save`: select by `id`; if a row exists, overwrite its `token_hash`,
`jti`, `expires_at` and `revoked` (plus `revoked_at := now` when the saved
entity is revoked); otherwise insert the new row. -/
def AuthTokenStore.save (s : AuthTokenStore) (t : AuthTokenRec) (now : Int) :
    AuthTokenStore :=
  if s.any (fun r => r.id == t.id) then
    s.map (fun r =>
      if r.id == t.id then
        { r with tokenHash := t.tokenHash, jti := t.jti, expiresAt := t.expiresAt,
                 revoked := t.revoked,
                 revokedAt := if t.revoked then some now else r.revokedAt }
      else r)
  else s ++ [t]

/-- Source `AuthTokenRepositoryPort.get_by_token_string`, called by
`LogoutUseCase.execute` (line 49).

Modelled from the spec: the port declares the method
(`repository_ports.py` line 32) but no implementation exists under src/
(the concrete `AuthTokenRepository` implements `get_by_token_hash`
instead).  The spec's logout flow reads "look up its AuthToken by
verifier", the verifier being the hash of the full token string, so the
lookup resolves the stored row whose `token_hash` equals the hash of the
presented token string. -/
def AuthTokenStore.getByTokenString (hashToken : String → String)
    (s : AuthTokenStore) (tokenString : String) : Option AuthTokenRec :=
  s.find? (fun r => r.tokenHash == hashToken tokenString)

/-! ## SessionRepository (…/db/repositories/session_repository.py) -/

/-- Source `get_active_sessions_for_user`: `SELECT ... WHERE user_id = :u AND
active = true` (the `ORDER BY created_at DESC` only affects iteration
order, which no property below depends on). -/
def SessionStore.getActiveSessionsForUser (s : SessionStore) (userId : String) :
    List SessionRec :=
  s.filter (fun r => r.userId == userId && r.active)

/-- Source `end_session`: `UPDATE ... SET active=false, ended_at=now WHERE id = :id`. -/
def SessionStore.endSession (s : SessionStore) (sessionId : String) (now : Int) :
    SessionStore :=
  s.map (fun r =>
    if r.id == sessionId then { r with active := false, endedAt := some now }
    else r)

/-! ## JWT service (…/adapters/services/jwt_service.py)

`jose.jwt.decode` (signature verification) is a black box: a parameter
`verify : String → Option RawPayload` returns the verified claim dict of a
presented token string, or `none` for any `JWTError`.  The claim dicts
built by `create_access_token` / `create_refresh_token` always carry
`jti`, `sub`, `username`, `iat`, `exp` and `token_type`; `role`,
`permissions` and `team_name` are present only on access tokens, which the
optional fields model (`payload.get(...)`). -/

/-- A signature-verified JWT claim dict. -/
structure RawPayload where
  jti : String
  sub : String
  username : String
  role : Option String
  permissions : Option (List String)
  teamName : Option String
  iat : Int
  exp : Int
  tokenType : Option String
deriving DecidableEq, Repr

/-- The `TokenPayload` value object as the use cases consume it.  (The
pydantic class in `token_payload.py` omits the `jti` field even though
`ValidateTokenUseCase` and `RefreshTokenUseCase` read `payload.jti`; the
model carries the `jti` claim of the signed payload, which
`create_access_token` / `create_refresh_token` always embed.) -/
structure TokenPayload where
  sub : String
  username : String
  role : String
  permissions : List String
  teamName : Option String
  iat : Int
  exp : Int
  tokenType : String
  jti : String
deriving DecidableEq, Repr

/-- Source `TokenPayload.is_access_token`. -/
def TokenPayload.isAccessToken (p : TokenPayload) : Bool :=
  p.tokenType == "access"

/-- Source `TokenPayload.is_refresh_token`. -/
def TokenPayload.isRefreshToken (p : TokenPayload) : Bool :=
  p.tokenType == "refresh"

/-- Source `TokenExpiredException` / `InvalidTokenException` with its message. -/
inductive TokenError where
  | expired
  | invalid (msg : String)
deriving DecidableEq, Repr

/-- Source `JWTService.decode_token`: verify the signature, re-check the embedded
expiry (`if exp and now > exp`, so an `exp` of `0` is falsy and skips the
check), then project the claims — for `token_type == "refresh"` the
payload is built with `role=""` and `permissions=[]` ("Not included in
refresh token"); otherwise with `payload.get("role", "")` /
`payload.get("permissions", [])` / `payload.get("team_name")`. -/
def decodeToken (verify : String → Option RawPayload) (now : Int)
    (token : String) : Except TokenError TokenPayload :=
  match verify token with
  | none => Except.error (TokenError.invalid "JWTError")
  | some payload =>
    if payload.exp ≠ 0 ∧ now > payload.exp then Except.error TokenError.expired
    else
      let tokenType := payload.tokenType.getD "access"
      if tokenType == "refresh" then
        Except.ok
          { sub := payload.sub, username := payload.username, role := "",
            permissions := [], teamName := none, iat := payload.iat,
            exp := payload.exp, tokenType := tokenType, jti := payload.jti }
      else
        Except.ok
          { sub := payload.sub, username := payload.username,
            role := payload.role.getD "", permissions := payload.permissions.getD [],
            teamName := payload.teamName, iat := payload.iat,
            exp := payload.exp, tokenType := tokenType, jti := payload.jti }

/-! ## ValidateTokenUseCase (…/use_cases/validate_token_use_case.py) -/

/-- Source `ValidateTokenUseCase.execute`: decode, require an access token,
require a well-formed jti, resolve the row by jti, reject revoked rows,
reject rows past their stored expiry, reject hash mismatches. -/
def validateTokenExecute (verify : String → Option RawPayload)
    (hashToken : String → String) (store : AuthTokenStore) (now : Int)
    (token : String) : Except TokenError TokenPayload :=
  match decodeToken verify now token with
  | Except.error e => Except.error e
  | Except.ok payload =>
    if ¬ payload.isAccessToken then
      Except.error (TokenError.invalid "Provided token is not an access token")
    else if payload.jti == "" ∨ ¬ validateJtiFormat payload.jti then
      Except.error (TokenError.invalid "Token missing valid JWT ID")
    else
      match store.getByJti (canonUuid payload.jti) with
      | none => Except.error (TokenError.invalid "Token not found in database")
      | some te =>
        if te.revoked then
          Except.error (TokenError.invalid "Token has been revoked")
        else if te.expiresAt < now then
          Except.error TokenError.expired
        else if te.tokenHash ≠ hashToken token then
          Except.error (TokenError.invalid "Token hash verification failed")
        else Except.ok payload

/-! ## RefreshTokenUseCase (…/use_cases/refresh_token_use_case.py) -/

/-- Source `InvalidRefreshTokenException` (and the re-raised
`TokenExpiredException`) as `RefreshTokenUseCase.execute` surfaces them. -/
inductive RefreshError where
  | tokenExpired
  | invalidRefresh (msg : String)
deriving DecidableEq, Repr

/-- The user dict returned by `users_service.get_user_by_id` (optional
fields model `dict.get` with a default). -/
structure UserData where
  role : Option String
  permissions : Option (List String)
  teamName : Option String
deriving DecidableEq, Repr

/-- Source `TokenResponse` DTO. -/
structure TokenResponse where
  accessToken : String
  refreshToken : String
  tokenType : String
  expiresIn : Int
deriving DecidableEq, Repr

/-- The keyword arguments `RefreshTokenUseCase.execute` passes to
`jwt_service.create_access_token` (step 6). -/
structure AccessTokenRequest where
  userId : String
  username : String
  role : String
  permissions : List String
  teamName : Option String
  expiresMinutes : Int
deriving DecidableEq, Repr

/-- Steps 4–5 of `RefreshTokenUseCase.execute` (lines 103–118): the role,
permissions and team used for the new access token — fresh user data when
the users-service call returns a dict, the token's own claims when it
returns nothing or raises. -/
def refreshClaims (userData : Option UserData) (payload : TokenPayload) :
    String × List String × Option String :=
  match userData with
  | some d =>
    (d.role.getD payload.role, d.permissions.getD payload.permissions,
     match d.teamName with | some t => some t | none => payload.teamName)
  | none => (payload.role, payload.permissions, payload.teamName)

/-- Source `RefreshTokenUseCase.execute`.

`createAccessToken` abstracts `jwt_service.create_access_token` (returns
the signed string and its jti); `usersFetch` abstracts
`users_service.get_user_by_id`, with `none` covering both "no user" and a
raised exception (the code catches any exception and sets
`user_data = None`).  The decode step maps `InvalidTokenException` to
`InvalidRefreshTokenException` and re-raises `TokenExpiredException`. -/
def refreshTokenExecute (verify : String → Option RawPayload)
    (hashToken : String → String)
    (createAccessToken : AccessTokenRequest → String × String)
    (usersFetch : String → Option UserData) (store : AuthTokenStore)
    (now : Int) (accessTokenExpireMinutes : Int) (refreshToken : String) :
    Except RefreshError TokenResponse × AuthTokenStore :=
  match decodeToken verify now refreshToken with
  | Except.error TokenError.expired => (Except.error RefreshError.tokenExpired, store)
  | Except.error (TokenError.invalid _) =>
    (Except.error (RefreshError.invalidRefresh "Invalid refresh token"), store)
  | Except.ok payload =>
    if ¬ payload.isRefreshToken then
      (Except.error (RefreshError.invalidRefresh "Provided token is not a refresh token"), store)
    else if payload.jti == "" ∨ ¬ validateJtiFormat payload.jti then
      (Except.error (RefreshError.invalidRefresh "Refresh token missing valid JWT ID"), store)
    else
      match store.getByJti (canonUuid payload.jti) with
      | none => (Except.error (RefreshError.invalidRefresh "Refresh token not found"), store)
      | some te =>
        if te.revoked then
          (Except.error (RefreshError.invalidRefresh "Refresh token has been revoked"), store)
        else if te.tokenHash ≠ hashToken refreshToken then
          (Except.error (RefreshError.invalidRefresh "Refresh token verification failed"), store)
        else
          let userData := usersFetch payload.sub
          let claims := refreshClaims userData payload
          let issued := createAccessToken
            { userId := payload.sub, username := payload.username,
              role := claims.1, permissions := claims.2.1, teamName := claims.2.2,
              expiresMinutes := accessTokenExpireMinutes }
          let newRec : AuthTokenRec :=
            { id := canonUuid issued.2, userId := canonUuid payload.sub,
              tokenType := TokenType.access, tokenHash := hashToken issued.1,
              jti := canonUuid issued.2,
              expiresAt := now + accessTokenExpireMinutes * 60, createdAt := now,
              revoked := false, revokedAt := none }
          (Except.ok
            { accessToken := issued.1, refreshToken := refreshToken,
              tokenType := "bearer", expiresIn := accessTokenExpireMinutes * 60 },
            store.save newRec now)

/-! ## LogoutUseCase (…/use_cases/logout_use_case.py) -/

/-- The dict `LogoutUseCase.execute` returns. -/
structure LogoutResponse where
  message : String
  userId : String
  username : String
deriving DecidableEq, Repr

/-- Source `LogoutUseCase.execute`: resolve the presented access token
(`get_by_token_string`, see `AuthTokenStore.getByTokenString`); when a row
is found, revoke it and end every active session of the current user bound
to that token id; when none is found, only log a warning.  Either way the
success dict is returned. -/
def logoutExecute (hashToken : String → String) (tokStore : AuthTokenStore)
    (sessStore : SessionStore) (currentUserSub currentUserUsername : String)
    (accessTokenString : String) (now : Int) :
    LogoutResponse × AuthTokenStore × SessionStore :=
  let response : LogoutResponse :=
    { message := "Logged out successfully", userId := currentUserSub,
      username := currentUserUsername }
  match AuthTokenStore.getByTokenString hashToken tokStore accessTokenString with
  | none => (response, tokStore, sessStore)
  | some te =>
    let tokStore' := (tokStore.revokeToken te.id now).2
    let sessions := sessStore.getActiveSessionsForUser (canonUuid currentUserSub)
    let toEnd := sessions.filter (fun s => s.accessTokenId == te.id)
    let sessStore' := toEnd.foldl (fun st s => st.endSession s.id now) sessStore
    (response, tokStore', sessStore')

/-! ## Further derived definitions used in theorem statements -/

/-- The keyword arguments that `RefreshTokenUseCase.execute` passes to
`create_access_token` for a given users-service answer and decoded
payload (mirrors steps 4–6 of the use case). -/
def refreshAccessRequest (usersFetch : String → Option UserData)
    (payload : TokenPayload) (accessTokenExpireMinutes : Int) :
    AccessTokenRequest :=
  let claims := refreshClaims (usersFetch payload.sub) payload
  { userId := payload.sub, username := payload.username, role := claims.1,
    permissions := claims.2.1, teamName := claims.2.2,
    expiresMinutes := accessTokenExpireMinutes }

/-- The access `AuthToken` row that a successful refresh persists
(step 7 of `RefreshTokenUseCase.execute` and `AuthToken.__init__`). -/
def refreshNewAccessRec (hashToken : String → String)
    (issued : String × String) (payload : TokenPayload) (now : Int)
    (accessTokenExpireMinutes : Int) : AuthTokenRec :=
  { id := canonUuid issued.2, userId := canonUuid payload.sub,
    tokenType := TokenType.access, tokenHash := hashToken issued.1,
    jti := canonUuid issued.2,
    expiresAt := now + accessTokenExpireMinutes * 60, createdAt := now,
    revoked := false, revokedAt := none }

/-! ## Concrete fixtures used by witnesses and counterexamples -/

/-- A freshly generated pending OTP row. -/
def otpFix : OTP :=
  { otpId := "otp-1", userId := "u1", code := "123456",
    deliveryMethod := DeliveryMethod.email, recipient := "alice@example.com",
    maxAttempts := 3, status := OTPStatus.pending, createdAt := 0,
    expiresAt := 300, attempts := 0, validatedAt := none }

/-- A concrete stand-in for the SHA-256 `hash_token` black box. -/
def hashFix : String → String := fun s => "h:" ++ s

/-- A well-formed jti. -/
def jtiFix : String := "11111111-1111-1111-1111-111111111111"

/-- A second well-formed jti. -/
def jtiFix2 : String := "22222222-2222-2222-2222-222222222222"

/-- Verified claims of a signed access token `"tokA"`. -/
def rawAccessFix : RawPayload :=
  { jti := jtiFix, sub := "u1", username := "alice", role := some "USER",
    permissions := some ["read"], teamName := none, iat := 0, exp := 1000,
    tokenType := some "access" }

/-- Verified claims of a signed refresh token `"tokR"`. -/
def rawRefreshFix : RawPayload :=
  { jti := jtiFix2, sub := "u1", username := "alice", role := none,
    permissions := none, teamName := none, iat := 0, exp := 1000,
    tokenType := some "refresh" }

/-- A concrete stand-in for the `jose.jwt.decode` signature check. -/
def verifyFix : String → Option RawPayload := fun t =>
  if t = "tokA" then some rawAccessFix
  else if t = "tokR" then some rawRefreshFix
  else none

/-- The decoded payload of `"tokA"`. -/
def payloadAccessFix : TokenPayload :=
  { sub := "u1", username := "alice", role := "USER", permissions := ["read"],
    teamName := none, iat := 0, exp := 1000, tokenType := "access",
    jti := jtiFix }

/-- The decoded payload of `"tokR"`. -/
def payloadRefreshFix : TokenPayload :=
  { sub := "u1", username := "alice", role := "", permissions := [],
    teamName := none, iat := 0, exp := 1000, tokenType := "refresh",
    jti := jtiFix2 }

/-- A stored, already revoked access-token row for `"tokA"`. -/
def accTokRecFix : AuthTokenRec :=
  { id := jtiFix, userId := "u1", tokenType := TokenType.access,
    tokenHash := hashFix "tokA", jti := jtiFix, expiresAt := 900,
    createdAt := 0, revoked := true, revokedAt := some 10 }

/-- A stored, live refresh-token row for `"tokR"`. -/
def refTokRecFix : AuthTokenRec :=
  { id := jtiFix2, userId := "u1", tokenType := TokenType.refresh,
    tokenHash := hashFix "tokR", jti := jtiFix2, expiresAt := 9000,
    createdAt := 0, revoked := false, revokedAt := none }

/-- An active session bound to the access token `accTokRecFix`. -/
def sessFix : SessionRec :=
  { id := "sess-1", userId := "u1", accessTokenId := jtiFix,
    ipAddress := "1.2.3.4", userAgent := "UA", createdAt := 0,
    lastActivity := 0, expiresAt := 900, active := true, endedAt := none }

/-- An active session of another user bound to another token. -/
def sessOtherFix : SessionRec :=
  { id := "sess-2", userId := "u2", accessTokenId := jtiFix2,
    ipAddress := "5.6.7.8", userAgent := "UA2", createdAt := 0,
    lastActivity := 0, expiresAt := 900, active := true, endedAt := none }

/-- A concrete stand-in for `create_access_token`: a fresh signed string
and jti. -/
def createAccessTokenFix : AccessTokenRequest → String × String :=
  fun _ => ("tokA2", "33333333-3333-3333-3333-333333333333")

/-! ## Theorems -/

/-- C10: when no stored AuthToken matches the presented access token
string, `LogoutUseCase.execute` still returns the success message carrying
the caller's user id and username, revokes nothing and ends no session:
both stores are returned unchanged. -/
theorem logout_returns_success_when_token_missing
    (hashToken : String → String) (tokStore : AuthTokenStore)
    (sessStore : SessionStore) (sub uname tok : String) (now : Int)
    (habsent : AuthTokenStore.getByTokenString hashToken tokStore tok = none) :
    logoutExecute hashToken tokStore sessStore sub uname tok now =
      ({ message := "Logged out successfully", userId := sub, username := uname },
       tokStore, sessStore) := by
  unfold logoutExecute
  rw [habsent]

/-- Closed instance of `logout_returns_success_when_token_missing`: a
token string whose hash matches no stored row. -/
theorem logout_returns_success_when_token_missing_witness :
    AuthTokenStore.getByTokenString hashFix [accTokRecFix] "tokX" = none ∧
    logoutExecute hashFix [accTokRecFix] [sessFix] "u1" "alice" "tokX" 100 =
      ({ message := "Logged out successfully", userId := "u1", username := "alice" },
       [accTokRecFix], [sessFix]) :=
  ⟨by decide,
   logout_returns_success_when_token_missing hashFix [accTokRecFix] [sessFix]
     "u1" "alice" "tokX" 100 (by decide)⟩

/-- C3 (code bug): `GenerateOTPUseCase.execute` puts the raw OTP code into
the response unconditionally — even with the `DEV_SHOW_OTP_IN_RESPONSE`
development flag disabled, the generated code `"123456"` is returned in
`otp_code` (the flag, default `True`, is never consulted by the use
case). -/
theorem generate_otp_returns_code_despite_disabled_dev_flag :
    (generateOTPExecute false []
      { userId := "u1", deliveryMethod := "email",
        recipient := some "alice@example.com" } "123456" "otp-1" 0).1 =
      Except.ok
        { otpId := "otp-1", expiresAt := 300, deliveryMethod := "email",
          recipient := "a***e@example.com", otpCode := some "123456" } := by
  decide

/-- C4 (code bug): on an OTP whose expiry has passed, validate fails with
`Expired` but the stored row keeps its old status — `mark_as_expired` is
called on the in-memory entity only and never persisted, so after the call
the stored status is still `pending`, not `expired`.  Moreover the
expiry comparison is strict (`now > expires_at`), so at `now = expires_at`
the correct code still validates instead of failing with `Expired` as the
claim's `now ≥ expires_at` reading requires. -/
theorem validate_expired_otp_store_not_transitioned :
    (validateOTPExecute [otpFix] "otp-1" "123456" 400).1 =
      Except.error OTPValidateError.expired ∧
    ((validateOTPExecute [otpFix] "otp-1" "123456" 400).2.getById "otp-1").map
        OTP.status = some OTPStatus.pending ∧
    (validateOTPExecute [otpFix] "otp-1" "123456" 300).1 =
      Except.ok
        { valid := true, userId := "u1", email := some "alice@example.com",
          attemptsRemaining := none } := by
  refine ⟨by decide, by decide, by decide⟩

/-- C9: decoding a kind-"refresh" token always produces a payload with
`role = ""` and `permissions = []`, so the token-claims fallback of the
refresh flow (users service unavailable, `user_data = None`) signs the new
access token with an empty role and an empty permission set. -/
theorem decode_refresh_empty_authorization_claims
    (verify : String → Option RawPayload) (now : Int) (tok : String)
    (raw : RawPayload) (payload : TokenPayload)
    (hver : verify tok = some raw)
    (hkind : raw.tokenType = some "refresh")
    (hdec : decodeToken verify now tok = Except.ok payload) :
    payload.role = "" ∧ payload.permissions = [] ∧
    refreshClaims none payload = ("", [], none) := by
  unfold decodeToken at hdec
  simp only [hver] at hdec
  by_cases hexp : raw.exp ≠ 0 ∧ now > raw.exp
  · rw [if_pos hexp] at hdec
    exact absurd hdec (by simp)
  · rw [if_neg hexp] at hdec
    simp only [hkind, Option.getD_some, beq_self_eq_true, if_true,
      Except.ok.injEq] at hdec
    subst hdec
    exact ⟨rfl, rfl, rfl⟩

/-- Closed instance of `decode_refresh_empty_authorization_claims` at the
concrete refresh token `"tokR"`. -/
theorem decode_refresh_empty_authorization_claims_witness :
    verifyFix "tokR" = some rawRefreshFix ∧
    rawRefreshFix.tokenType = some "refresh" ∧
    decodeToken verifyFix 100 "tokR" = Except.ok payloadRefreshFix ∧
    (payloadRefreshFix.role = "" ∧ payloadRefreshFix.permissions = [] ∧
     refreshClaims none payloadRefreshFix = ("", [], none)) :=
  ⟨by decide, by decide, by decide,
   decode_refresh_empty_authorization_claims verifyFix 100 "tokR" rawRefreshFix
     payloadRefreshFix (by decide) (by decide) (by decide)⟩

/-- Whenever the decode step of `ValidateTokenUseCase.execute` succeeds
with an access-kind payload whose well-formed jti resolves to a revoked
stored row, the use case raises the revoked-token error (the revoked check
precedes the stored-expiry and hash checks). -/
theorem validateTokenExecute_revoked_error
    (verify : String → Option RawPayload) (hashToken : String → String)
    (store : AuthTokenStore) (now : Int) (token : String)
    (payload : TokenPayload) (te : AuthTokenRec)
    (hdec : decodeToken verify now token = Except.ok payload)
    (hacc : payload.isAccessToken = true)
    (hne : payload.jti ≠ "")
    (hfmt : validateJtiFormat payload.jti = true)
    (hget : store.getByJti (canonUuid payload.jti) = some te)
    (hrev : te.revoked = true) :
    validateTokenExecute verify hashToken store now token =
      Except.error (TokenError.invalid "Token has been revoked") := by
  unfold validateTokenExecute
  simp only [hdec]
  rw [if_neg (by simp [hacc])]
  rw [if_neg (by rw [not_or]; exact ⟨by simp [hne], by simp [hfmt]⟩)]
  simp only [hget]
  rw [if_pos hrev]

/-- Rows of the table produced by `revoke_all_user_tokens u` that belong
to `u` are revoked. -/
theorem revokeAllUserTokens_mem_revoked {s : AuthTokenStore} {u : String}
    {now : Int} {r : AuthTokenRec}
    (hr : r ∈ (s.revokeAllUserTokens u now).2) (hu : r.userId = u) :
    r.revoked = true := by
  unfold AuthTokenStore.revokeAllUserTokens at hr
  simp only [List.mem_map] at hr
  obtain ⟨a, ha, rfl⟩ := hr
  by_cases h : (a.userId == u && !a.revoked) = true
  · rw [if_pos h]
  · rw [if_neg h] at hu ⊢
    simp only [Bool.and_eq_true, beq_iff_eq, Bool.not_eq_true', not_and] at h
    cases hb : a.revoked with
    | false => exact absurd hb (h hu)
    | true => rfl

/-- C1: a stored AuthToken with `revoked = true` is rejected by
`ValidateTokenUseCase.execute` with the invalid/revoked error even though
the presented token decoded successfully (its cryptographic expiry lies in
the future and no constraint is placed on the stored expiry); and after
`revoke_all_user_tokens u` completes, validation fails the same way for
every access token whose jti resolves to a stored record of user `u`. -/
theorem validateToken_rejects_revoked_tokens :
    (∀ (verify : String → Option RawPayload) (hashToken : String → String)
       (store : AuthTokenStore) (now : Int) (token : String)
       (payload : TokenPayload) (te : AuthTokenRec),
       decodeToken verify now token = Except.ok payload →
       payload.isAccessToken = true →
       payload.jti ≠ "" →
       validateJtiFormat payload.jti = true →
       store.getByJti (canonUuid payload.jti) = some te →
       te.revoked = true →
       validateTokenExecute verify hashToken store now token =
         Except.error (TokenError.invalid "Token has been revoked")) ∧
    (∀ (verify : String → Option RawPayload) (hashToken : String → String)
       (s : AuthTokenStore) (u : String) (rnow now : Int) (token : String)
       (payload : TokenPayload) (te : AuthTokenRec),
       decodeToken verify now token = Except.ok payload →
       payload.isAccessToken = true →
       payload.jti ≠ "" →
       validateJtiFormat payload.jti = true →
       (s.revokeAllUserTokens u rnow).2.getByJti (canonUuid payload.jti) = some te →
       te.userId = u →
       validateTokenExecute verify hashToken (s.revokeAllUserTokens u rnow).2 now token =
         Except.error (TokenError.invalid "Token has been revoked")) :=
  ⟨fun verify hashToken store now token payload te hdec hacc hne hfmt hget hrev =>
    validateTokenExecute_revoked_error verify hashToken store now token payload te
      hdec hacc hne hfmt hget hrev,
   fun verify hashToken s u rnow now token payload te hdec hacc hne hfmt hget huser =>
    validateTokenExecute_revoked_error verify hashToken _ now token payload te
      hdec hacc hne hfmt hget
      (revokeAllUserTokens_mem_revoked (List.mem_of_find?_eq_some hget) huser)⟩

/-- Closed instance of `validateToken_rejects_revoked_tokens`: the revoked
stored access token `accTokRecFix` (stored expiry 900 in the future of
`now = 100`), and the same store rebuilt by `revoke_all_user_tokens "u1"`
from its non-revoked variant. -/
theorem validateToken_rejects_revoked_tokens_witness :
    validateTokenExecute verifyFix hashFix [accTokRecFix] 100 "tokA" =
      Except.error (TokenError.invalid "Token has been revoked") ∧
    validateTokenExecute verifyFix hashFix
        (AuthTokenStore.revokeAllUserTokens
          [{ accTokRecFix with revoked := false, revokedAt := none }] "u1" 50).2
        100 "tokA" =
      Except.error (TokenError.invalid "Token has been revoked") :=
  ⟨validateToken_rejects_revoked_tokens.1 verifyFix hashFix [accTokRecFix] 100
     "tokA" payloadAccessFix accTokRecFix (by decide) (by decide) (by decide)
     (by decide) (by decide) (by decide),
   validateToken_rejects_revoked_tokens.2 verifyFix hashFix
     [{ accTokRecFix with revoked := false, revokedAt := none }] "u1" 50 100
     "tokA" payloadAccessFix { accTokRecFix with revokedAt := some 50 }
     (by decide) (by decide) (by decide) (by decide) (by decide) (by decide)⟩

/-- C6: a refresh call presented with a token whose decoded kind is not
"refresh" fails with `RefreshTokenInvalid` and leaves the token store
unchanged; a refresh call whose kind-"refresh" token resolves to a revoked
stored record fails with `RefreshTokenInvalid` and leaves the token store
unchanged — in both cases no new access token is issued. -/
theorem refresh_rejects_wrong_kind_and_revoked :
    (∀ (verify : String → Option RawPayload) (hashToken : String → String)
       (createAccessToken : AccessTokenRequest → String × String)
       (usersFetch : String → Option UserData) (store : AuthTokenStore)
       (now mins : Int) (tok : String) (payload : TokenPayload),
       decodeToken verify now tok = Except.ok payload →
       payload.isRefreshToken = false →
       refreshTokenExecute verify hashToken createAccessToken usersFetch store
           now mins tok =
         (Except.error (RefreshError.invalidRefresh "Provided token is not a refresh token"),
          store)) ∧
    (∀ (verify : String → Option RawPayload) (hashToken : String → String)
       (createAccessToken : AccessTokenRequest → String × String)
       (usersFetch : String → Option UserData) (store : AuthTokenStore)
       (now mins : Int) (tok : String) (payload : TokenPayload)
       (te : AuthTokenRec),
       decodeToken verify now tok = Except.ok payload →
       payload.isRefreshToken = true →
       payload.jti ≠ "" →
       validateJtiFormat payload.jti = true →
       store.getByJti (canonUuid payload.jti) = some te →
       te.revoked = true →
       refreshTokenExecute verify hashToken createAccessToken usersFetch store
           now mins tok =
         (Except.error (RefreshError.invalidRefresh "Refresh token has been revoked"),
          store)) := by
  constructor
  · intro verify hashToken createAccessToken usersFetch store now mins tok payload
      hdec hkind
    unfold refreshTokenExecute
    simp only [hdec]
    rw [if_pos (by simp [hkind])]
  · intro verify hashToken createAccessToken usersFetch store now mins tok payload
      te hdec hkind hne hfmt hget hrev
    unfold refreshTokenExecute
    simp only [hdec]
    rw [if_neg (by simp [hkind])]
    rw [if_neg (by rw [not_or]; exact ⟨by simp [hne], by simp [hfmt]⟩)]
    simp only [hget]
    rw [if_pos hrev]

/-- Closed instance of `refresh_rejects_wrong_kind_and_revoked`: refresh
presented with the access token `"tokA"`, and with the refresh token
`"tokR"` whose stored record is revoked. -/
theorem refresh_rejects_wrong_kind_and_revoked_witness :
    refreshTokenExecute verifyFix hashFix createAccessTokenFix (fun _ => none)
        [refTokRecFix] 100 60 "tokA" =
      (Except.error (RefreshError.invalidRefresh "Provided token is not a refresh token"),
       [refTokRecFix]) ∧
    refreshTokenExecute verifyFix hashFix createAccessTokenFix (fun _ => none)
        [{ refTokRecFix with revoked := true, revokedAt := some 10 }] 100 60 "tokR" =
      (Except.error (RefreshError.invalidRefresh "Refresh token has been revoked"),
       [{ refTokRecFix with revoked := true, revokedAt := some 10 }]) :=
  ⟨refresh_rejects_wrong_kind_and_revoked.1 verifyFix hashFix createAccessTokenFix
     (fun _ => none) [refTokRecFix] 100 60 "tokA" payloadAccessFix
     (by decide) (by decide),
   refresh_rejects_wrong_kind_and_revoked.2 verifyFix hashFix createAccessTokenFix
     (fun _ => none) [{ refTokRecFix with revoked := true, revokedAt := some 10 }]
     100 60 "tokR" payloadRefreshFix
     { refTokRecFix with revoked := true, revokedAt := some 10 }
     (by decide) (by decide) (by decide) (by decide) (by decide) (by decide)⟩

/-- Insertion case of `AuthTokenRepository.save`: when no stored row has
the saved entity's id, save appends the new row and leaves every existing
row untouched. -/
theorem saveToken_append_of_fresh (s : AuthTokenStore) (t : AuthTokenRec)
    (now : Int) (hfresh : ∀ r ∈ s, r.id ≠ t.id) :
    s.save t now = s ++ [t] := by
  unfold AuthTokenStore.save
  rw [if_neg (fun hany => by
    obtain ⟨r, hr, hbeq⟩ := List.any_eq_true.mp hany
    exact hfresh r hr (by simpa using hbeq))]

/-- C7 counterexample: the claim "once `revoked = true`, no subsequent
store operation ever sets it back to false" fails on `save`: saving an
entity that reuses the stored row's id with `revoked = false` overwrites
the stored flag, un-revoking the row. -/
theorem save_clears_revoked_flag_counterexample :
    accTokRecFix.revoked = true ∧
    AuthTokenStore.save [accTokRecFix]
        { accTokRecFix with revoked := false, revokedAt := none } 50 =
      [{ accTokRecFix with revoked := false, revokedAt := some 10 }] ∧
    ((AuthTokenStore.save [accTokRecFix]
        { accTokRecFix with revoked := false, revokedAt := none } 50).getByJti
        jtiFix).map AuthTokenRec.revoked = some false := by
  refine ⟨by decide, by decide, by decide⟩

/-- C7 (amended): `revoke_token` and `revoke_all_user_tokens` never clear
a row's revoked flag; `save` of an entity whose id matches no stored row
appends it and leaves every existing row (hence every revoked flag)
unchanged; and `save` of a revoked entity onto an existing row keeps
revoked rows revoked.  Only a `save` that reuses an existing id with a
non-revoked entity can clear the flag (the counterexample). -/
theorem revoked_monotonic_outside_save_overwrite :
    (∀ (s : AuthTokenStore) (tokenId : String) (now : Int),
      List.Forall₂ (fun a b => a.revoked = true → b.revoked = true) s
        (s.revokeToken tokenId now).2) ∧
    (∀ (s : AuthTokenStore) (u : String) (now : Int),
      List.Forall₂ (fun a b => a.revoked = true → b.revoked = true) s
        (s.revokeAllUserTokens u now).2) ∧
    (∀ (s : AuthTokenStore) (t : AuthTokenRec) (now : Int),
      (∀ r ∈ s, r.id ≠ t.id) → s.save t now = s ++ [t]) ∧
    (∀ (s : AuthTokenStore) (t : AuthTokenRec) (now : Int),
      (s.any fun r => r.id == t.id) = true →
      t.revoked = true →
      List.Forall₂ (fun a b => a.revoked = true → b.revoked = true) s
        (s.save t now)) := by
  refine ⟨?_, ?_, ?_, ?_⟩
  · intro s tokenId now
    unfold AuthTokenStore.revokeToken
    rw [List.forall₂_map_right_iff, List.forall₂_same]
    intro x _ hrev
    by_cases h : (x.id == tokenId) = true
    · rw [if_pos h]
    · rw [if_neg h]; exact hrev
  · intro s u now
    unfold AuthTokenStore.revokeAllUserTokens
    rw [List.forall₂_map_right_iff, List.forall₂_same]
    intro x _ hrev
    by_cases h : (x.userId == u && !x.revoked) = true
    · rw [if_pos h]
    · rw [if_neg h]; exact hrev
  · intro s t now hfresh
    exact saveToken_append_of_fresh s t now hfresh
  · intro s t now hany htrev
    unfold AuthTokenStore.save
    rw [if_pos hany, List.forall₂_map_right_iff, List.forall₂_same]
    intro x _ hrev
    by_cases h : (x.id == t.id) = true
    · rw [if_pos h]; exact htrev
    · rw [if_neg h]; exact hrev

/-- Closed instance of `revoked_monotonic_outside_save_overwrite`
exercising all four conjuncts on concrete stores. -/
theorem revoked_monotonic_outside_save_overwrite_witness :
    List.Forall₂ (fun a b => a.revoked = true → b.revoked = true) [accTokRecFix]
      (AuthTokenStore.revokeToken [accTokRecFix] jtiFix 50).2 ∧
    List.Forall₂ (fun a b => a.revoked = true → b.revoked = true) [accTokRecFix]
      (AuthTokenStore.revokeAllUserTokens [accTokRecFix] "u1" 50).2 ∧
    ((∀ r ∈ [accTokRecFix], r.id ≠ refTokRecFix.id) ∧
      AuthTokenStore.save [accTokRecFix] refTokRecFix 50 =
        [accTokRecFix] ++ [refTokRecFix]) ∧
    ((([accTokRecFix].any fun r => r.id == accTokRecFix.id) = true ∧
        accTokRecFix.revoked = true) ∧
      List.Forall₂ (fun a b => a.revoked = true → b.revoked = true) [accTokRecFix]
        (AuthTokenStore.save [accTokRecFix] accTokRecFix 50)) :=
  ⟨revoked_monotonic_outside_save_overwrite.1 [accTokRecFix] jtiFix 50,
   revoked_monotonic_outside_save_overwrite.2.1 [accTokRecFix] "u1" 50,
   ⟨by decide,
    revoked_monotonic_outside_save_overwrite.2.2.1 [accTokRecFix] refTokRecFix 50
      (by decide)⟩,
   ⟨⟨by decide, by decide⟩,
    revoked_monotonic_outside_save_overwrite.2.2.2 [accTokRecFix] accTokRecFix 50
      (by decide) (by decide)⟩⟩

/-- C8: a refresh call whose kind-"refresh" token resolves to a
non-revoked, hash-matching stored record issues a new access token only:
the response reuses the presented refresh token string verbatim, and the
only store change is the appended access-kind `AuthToken` row for the
newly issued token (fresh id). -/
theorem refresh_persists_single_access_token_and_reuses_refresh
    (verify : String → Option RawPayload) (hashToken : String → String)
    (createAccessToken : AccessTokenRequest → String × String)
    (usersFetch : String → Option UserData) (store : AuthTokenStore)
    (now mins : Int) (tok : String) (payload : TokenPayload) (te : AuthTokenRec)
    (hdec : decodeToken verify now tok = Except.ok payload)
    (hkind : payload.isRefreshToken = true)
    (hne : payload.jti ≠ "")
    (hfmt : validateJtiFormat payload.jti = true)
    (hget : store.getByJti (canonUuid payload.jti) = some te)
    (hrev : te.revoked = false)
    (hhash : te.tokenHash = hashToken tok)
    (hfresh : ∀ r ∈ store,
      r.id ≠ canonUuid
        (createAccessToken (refreshAccessRequest usersFetch payload mins)).2) :
    refreshTokenExecute verify hashToken createAccessToken usersFetch store
        now mins tok =
      (Except.ok
        { accessToken :=
            (createAccessToken (refreshAccessRequest usersFetch payload mins)).1,
          refreshToken := tok, tokenType := "bearer", expiresIn := mins * 60 },
       store ++ [refreshNewAccessRec hashToken
         (createAccessToken (refreshAccessRequest usersFetch payload mins))
         payload now mins]) := by
  unfold refreshTokenExecute
  simp only [hdec]
  rw [if_neg (by simp [hkind])]
  rw [if_neg (by rw [not_or]; exact ⟨by simp [hne], by simp [hfmt]⟩)]
  simp only [hget]
  rw [if_neg (by simp [hrev])]
  rw [if_neg (by simp [hhash])]
  rw [saveToken_append_of_fresh _ _ _ (fun r hr => hfresh r hr)]
  rfl

/-- Closed instance of
`refresh_persists_single_access_token_and_reuses_refresh`: refreshing with
`"tokR"` against its live stored record, users service unavailable. -/
theorem refresh_persists_single_access_token_witness :
    refreshTokenExecute verifyFix hashFix createAccessTokenFix (fun _ => none)
        [refTokRecFix] 100 60 "tokR" =
      (Except.ok
        { accessToken := "tokA2", refreshToken := "tokR",
          tokenType := "bearer", expiresIn := 3600 },
       [refTokRecFix] ++
         [{ id := "33333333-3333-3333-3333-333333333333", userId := "u1",
            tokenType := TokenType.access, tokenHash := hashFix "tokA2",
            jti := "33333333-3333-3333-3333-333333333333",
            expiresAt := 3700, createdAt := 100, revoked := false,
            revokedAt := none }]) := by
  have h := refresh_persists_single_access_token_and_reuses_refresh verifyFix
    hashFix createAccessTokenFix (fun _ => none) [refTokRecFix] 100 60 "tokR"
    payloadRefreshFix refTokRecFix (by decide) (by decide) (by decide)
    (by decide) (by decide) (by decide) (by decide) (by decide)
  rw [h]
  decide

/-- Closed form of the logout session loop: ending each session of the
snapshot list `l` one by one by id equals a single pass that deactivates
exactly the rows whose id occurs in `l`. -/
theorem foldl_endSession_eq (l : List SessionRec) (st : SessionStore) (now : Int) :
    l.foldl (fun acc x => acc.endSession x.id now) st =
      st.map (fun r =>
        if l.any (fun x => r.id == x.id) then
          { r with active := false, endedAt := some now }
        else r) := by
  induction l generalizing st with
  | nil => simp
  | cons x xs ih =>
    rw [List.foldl_cons, ih]
    unfold SessionStore.endSession
    rw [List.map_map]
    refine List.map_congr_left ?_
    intro r _
    by_cases hx : (r.id == x.id) = true <;>
      by_cases hy : (xs.any fun x' => r.id == x'.id) = true <;>
        simp [hx, hy, List.any_cons, Function.comp]

/-- Shape of `LogoutUseCase.execute` when the presented token resolves to
a stored row `te`: the success dict, the token table with the row of id
`te.id` revoked, and the session table with exactly the rows whose id
occurs among the caller's active sessions bound to `te.id` deactivated. -/
theorem logoutExecute_found (hashToken : String → String)
    (tokStore : AuthTokenStore) (sessStore : SessionStore)
    (sub uname tok : String) (now : Int) (te : AuthTokenRec)
    (hget : AuthTokenStore.getByTokenString hashToken tokStore tok = some te) :
    logoutExecute hashToken tokStore sessStore sub uname tok now =
      ({ message := "Logged out successfully", userId := sub, username := uname },
       (tokStore.revokeToken te.id now).2,
       sessStore.map (fun r =>
         if ((sessStore.getActiveSessionsForUser (canonUuid sub)).filter
              (fun x => x.accessTokenId == te.id)).any (fun x => r.id == x.id) then
           { r with active := false, endedAt := some now }
         else r)) := by
  unfold logoutExecute
  simp only [hget]
  rw [foldl_endSession_eq]

/-- C5: when the presented access token string resolves (by verifier) to a
stored AuthToken `te`, logout revokes that row and ends exactly the
sessions bound to `te.id`: every stored session with
`accessTokenId = te.id` is inactive afterwards, and every session bound to
a different token — hence also every session of another user — is returned
completely unchanged.  Hypotheses: session ids are unique (primary key),
and sessions bound to `te` belong to the calling user (the invariant under
which sessions are created, one per issued access token). -/
theorem logout_ends_exactly_token_bound_sessions
    (hashToken : String → String) (tokStore : AuthTokenStore)
    (sessStore : SessionStore) (sub uname tok : String) (now : Int)
    (te : AuthTokenRec)
    (hget : AuthTokenStore.getByTokenString hashToken tokStore tok = some te)
    (hnodup : (sessStore.map SessionRec.id).Nodup)
    (hbind : ∀ x ∈ sessStore, x.accessTokenId = te.id → x.userId = canonUuid sub) :
    (∀ x ∈ (logoutExecute hashToken tokStore sessStore sub uname tok now).2.2,
       x.accessTokenId = te.id → x.active = false) ∧
    List.Forall₂ (fun a b => a.accessTokenId ≠ te.id → b = a) sessStore
      (logoutExecute hashToken tokStore sessStore sub uname tok now).2.2 ∧
    (∀ r ∈ (logoutExecute hashToken tokStore sessStore sub uname tok now).2.1,
       r.id = te.id → r.revoked = true) ∧
    List.Forall₂ (fun a b => a.id ≠ te.id → b = a) tokStore
      (logoutExecute hashToken tokStore sessStore sub uname tok now).2.1 := by
  rw [logoutExecute_found hashToken tokStore sessStore sub uname tok now te hget]
  refine ⟨?_, ?_, ?_, ?_⟩
  · intro x hx hxbind
    obtain ⟨a, ha, rfl⟩ := List.mem_map.mp hx
    by_cases hc : (((sessStore.getActiveSessionsForUser (canonUuid sub)).filter
        (fun x => x.accessTokenId == te.id)).any fun x => a.id == x.id) = true
    · rw [if_pos hc]
    · rw [if_neg hc] at hxbind ⊢
      cases hact : a.active with
      | false => rfl
      | true =>
        exfalso
        apply hc
        refine List.any_eq_true.mpr ⟨a, ?_, by simp⟩
        refine List.mem_filter.mpr ⟨?_, by simp [hxbind]⟩
        unfold SessionStore.getActiveSessionsForUser
        exact List.mem_filter.mpr ⟨ha, by simp [hact, hbind a ha hxbind]⟩
  · rw [List.forall₂_map_right_iff, List.forall₂_same]
    intro a ha hne
    rw [if_neg]
    intro hc
    obtain ⟨x, hxmem, hbeq⟩ := List.any_eq_true.mp hc
    have hxfil := List.mem_filter.mp hxmem
    have hxsess : x ∈ sessStore := by
      have := hxfil.1
      unfold SessionStore.getActiveSessionsForUser at this
      exact (List.mem_filter.mp this).1
    have hid : a.id = x.id := by simpa using hbeq
    have : a = x :=
      List.inj_on_of_nodup_map hnodup ha hxsess hid
    subst this
    exact hne (by simpa using hxfil.2)
  · intro r hr hid
    unfold AuthTokenStore.revokeToken at hr
    obtain ⟨a, ha, rfl⟩ := List.mem_map.mp hr
    by_cases hc : (a.id == te.id) = true
    · rw [if_pos hc]
    · rw [if_neg hc] at hid ⊢
      exact absurd hid (by simpa using hc)
  · unfold AuthTokenStore.revokeToken
    rw [List.forall₂_map_right_iff, List.forall₂_same]
    intro a _ hne
    rw [if_neg (by simpa using hne)]

/-- Closed instance of `logout_ends_exactly_token_bound_sessions`: logout
with `"tokA"` over a two-session table — the session bound to the token is
ended, the other user's session is untouched. -/
theorem logout_ends_exactly_token_bound_sessions_witness :
    AuthTokenStore.getByTokenString hashFix [accTokRecFix] "tokA" =
      some accTokRecFix ∧
    ([sessFix, sessOtherFix].map SessionRec.id).Nodup ∧
    (∀ x ∈ [sessFix, sessOtherFix],
       x.accessTokenId = accTokRecFix.id → x.userId = canonUuid "u1") ∧
    ((∀ x ∈ (logoutExecute hashFix [accTokRecFix] [sessFix, sessOtherFix]
          "u1" "alice" "tokA" 100).2.2,
        x.accessTokenId = accTokRecFix.id → x.active = false) ∧
     List.Forall₂ (fun a b => a.accessTokenId ≠ accTokRecFix.id → b = a)
       [sessFix, sessOtherFix]
       (logoutExecute hashFix [accTokRecFix] [sessFix, sessOtherFix]
         "u1" "alice" "tokA" 100).2.2 ∧
     (∀ r ∈ (logoutExecute hashFix [accTokRecFix] [sessFix, sessOtherFix]
          "u1" "alice" "tokA" 100).2.1,
        r.id = accTokRecFix.id → r.revoked = true) ∧
     List.Forall₂ (fun a b => a.id ≠ accTokRecFix.id → b = a) [accTokRecFix]
       (logoutExecute hashFix [accTokRecFix] [sessFix, sessOtherFix]
         "u1" "alice" "tokA" 100).2.1) :=
  ⟨by decide, by decide, by decide,
   logout_ends_exactly_token_bound_sessions hashFix [accTokRecFix]
     [sessFix, sessOtherFix] "u1" "alice" "tokA" 100 accTokRecFix
     (by decide) (by decide) (by decide)⟩

/-- The write effect of `ValidateOTPUseCase.execute` on the table:
`validateOTPEffect` with the snapshot read from the same table.  (Shows
that `validateOTPEffect` captures exactly the store writes of the use
case.) -/
theorem validateOTPExecute_store_eq (s : OTPStore) (otpId otpCode : String)
    (now : Int) :
    (validateOTPExecute s otpId otpCode now).2 =
      match s.getById otpId with
      | none => s
      | some otp => validateOTPEffect s otp otpCode now := by
  cases hg : s.getById otpId with
  | none => simp [validateOTPExecute, hg]
  | some otp =>
    simp only [validateOTPExecute, validateOTPEffect, hg]
    by_cases h1 : otp.status = OTPStatus.validated
    · simp [h1]
    · by_cases h2 : otp.isExpired now = true
      · simp [h1, h2]
      · by_cases h3 : otp.canAttemptValidation = true
        · by_cases h4 : (otp.incrementAttempts).isValidCode otpCode = true
          · simp [h1, h2, h3, h4]
          · simp [h1, h2, h3, h4, apply_ite Prod.snd]
        · simp [h1, h2, h3]

/-- The repository `UPDATE` changes no row's primary key or cap. -/
theorem idCaps_update (s : OTPStore) (o : OTP) :
    (s.update o).idCaps = s.idCaps := by
  unfold OTPStore.update OTPStore.idCaps
  rw [List.map_map]
  refine List.map_congr_left ?_
  intro r _
  by_cases h : (r.otpId == o.otpId) = true <;> simp [h, Function.comp]

/-- A single validate write-back changes no row's primary key or cap. -/
theorem validateOTPEffect_idCaps (s : OTPStore) (snap : OTP) (c : String)
    (now : Int) : (validateOTPEffect s snap c now).idCaps = s.idCaps := by
  simp only [validateOTPEffect]
  split
  · rfl
  · split
    · rfl
    · split
      · rfl
      · split
        · exact idCaps_update s _
        · exact idCaps_update s _

/-- Along any interleaving of concurrent validate calls, the table keeps
the primary keys and caps of the initial table, row for row. -/
theorem otpConcReach_idCaps {init s : OTPStore} (h : OTPConcReach init s) :
    s.idCaps = init.idCaps := by
  induction h with
  | refl => rfl
  | step otpId otpCode now hs hsnap hget ihs ihsnap =>
    rw [validateOTPEffect_idCaps]
    exact ihs

/-- Writing back an incremented snapshot whose guard `attempts < cap`
passed keeps every row of the updated table within its cap, provided the
current and snapshot tables both carry the initial keys/caps and the
initial keys are unique. -/
theorem attemptsWithinCap_update_of_snap
    {init s snapState : OTPStore} {snap : OTP} (o' : OTP)
    (hnodup : (init.map OTP.otpId).Nodup)
    (hs : s.idCaps = init.idCaps) (hsnap : snapState.idCaps = init.idCaps)
    (hcapS : s.attemptsWithinCap)
    (hmem : snap ∈ snapState)
    (hid : o'.otpId = snap.otpId)
    (hatt : o'.attempts = snap.attempts + 1)
    (hlt : snap.attempts < snap.maxAttempts) :
    (s.update o').attemptsWithinCap := by
  intro r hr
  unfold OTPStore.update at hr
  obtain ⟨a, ha, rfl⟩ := List.mem_map.mp hr
  by_cases h : (a.otpId == o'.otpId) = true
  · rw [if_pos h]
    show o'.attempts ≤ a.maxAttempts
    have haid : a.otpId = snap.otpId := by
      have hae : a.otpId = o'.otpId := by simpa using h
      rw [hae, hid]
    have hpairA : (a.otpId, a.maxAttempts) ∈ OTPStore.idCaps init := by
      rw [← hs]; exact List.mem_map.mpr ⟨a, ha, rfl⟩
    have hpairS : (snap.otpId, snap.maxAttempts) ∈ OTPStore.idCaps init := by
      rw [← hsnap]; exact List.mem_map.mpr ⟨snap, hmem, rfl⟩
    have hfstnodup : ((OTPStore.idCaps init).map Prod.fst).Nodup := by
      unfold OTPStore.idCaps
      rw [List.map_map]
      simpa [Function.comp] using hnodup
    have heqpair : (a.otpId, a.maxAttempts) = (snap.otpId, snap.maxAttempts) :=
      List.inj_on_of_nodup_map hfstnodup hpairA hpairS haid
    have hmax : a.maxAttempts = snap.maxAttempts := congrArg Prod.snd heqpair
    rw [hatt, hmax]
    exact hlt
  · rw [if_neg h]
    exact hcapS a ha

/-- C2: starting from a table whose rows are within their caps and whose
primary keys are unique, every table reachable by any interleaving of
(possibly concurrent, stale-snapshot) validate calls still satisfies
`attempts ≤ max_attempts` for every OTP row: the AttemptsExceeded guard is
evaluated on the snapshot before the increment, so each write-back
persists `snapshot.attempts + 1 ≤ max_attempts`.  Sequential sequences of
`ValidateOTPUseCase.execute` calls are the special case in which each
snapshot is read from the immediately preceding table
(`validateOTPExecute_store_eq`). -/
theorem otp_attempts_within_cap_invariant
    (init s : OTPStore)
    (hnodup : (init.map OTP.otpId).Nodup)
    (hcap : init.attemptsWithinCap)
    (hreach : OTPConcReach init s) :
    s.attemptsWithinCap := by
  induction hreach with
  | refl => exact hcap
  | @step s' snapState snap otpId otpCode now hs hsnap hget ihs ihsnap =>
    have hmem := List.mem_of_find?_eq_some hget
    have hsId := otpConcReach_idCaps hs
    have hsnapId := otpConcReach_idCaps hsnap
    intro o ho
    simp only [validateOTPEffect] at ho
    by_cases h1 : snap.status = OTPStatus.validated
    · rw [if_pos h1] at ho
      exact ihs o ho
    · rw [if_neg h1] at ho
      by_cases h2 : snap.isExpired now = true
      · rw [if_pos h2] at ho
        exact ihs o ho
      · rw [if_neg h2] at ho
        by_cases h3 : snap.canAttemptValidation = true
        · rw [if_neg (not_not_intro h3)] at ho
          have hlt : snap.attempts < snap.maxAttempts := by
            simpa [OTP.canAttemptValidation] using h3
          by_cases h4 : (snap.incrementAttempts).isValidCode otpCode = true
          · rw [if_pos h4] at ho
            exact attemptsWithinCap_update_of_snap
              ((snap.incrementAttempts).markAsValidated now) hnodup hsId hsnapId
              ihs hmem rfl rfl hlt o ho
          · rw [if_neg h4] at ho
            exact attemptsWithinCap_update_of_snap snap.incrementAttempts hnodup
              hsId hsnapId ihs hmem rfl rfl hlt o ho
        · rw [if_pos h3] at ho
          exact ihs o ho

/-- Closed instance of `otp_attempts_within_cap_invariant`: one
wrong-code validate write-back on a fresh single-row table. -/
theorem otp_attempts_within_cap_invariant_witness :
    ([otpFix].map OTP.otpId).Nodup ∧
    OTPStore.attemptsWithinCap [otpFix] ∧
    OTPStore.attemptsWithinCap (validateOTPEffect [otpFix] otpFix "000000" 100) :=
  ⟨by decide, by decide,
   otp_attempts_within_cap_invariant [otpFix]
     (validateOTPEffect [otpFix] otpFix "000000" 100) (by decide) (by decide)
     (@OTPConcReach.step [otpFix] [otpFix] [otpFix] otpFix "otp-1" "000000" 100
       OTPConcReach.refl OTPConcReach.refl (by decide))⟩
